import Mathlib

/-!
# Verification of the step-counter backend

Shallow embedding of `src/step_counter_app/backend/main.py`.

Python floats are modelled as exact rationals (`ℚ`); Python's `/`, which
raises `ZeroDivisionError` on a zero divisor, is modelled by `pydiv`
returning `Option ℚ`.  The relational store (two tables: `StepRecord`
rows and the singleton `WeightGoal` row) is modelled as a `Store` holding
the records in insertion order together with an optional goal row; the
store-assigned `id` and `created_at` columns are modelled by strictly
increasing counters.
-/

namespace StepCounter

/-- Python's float division: raises (here: `none`) when the divisor is 0. -/
def pydiv (a b : ℚ) : Option ℚ :=
  if b = 0 then none else some (a / b)

/-- `calculate_distance_and_calories` from `main.py` (floats as `ℚ`):
distance from a fixed 0.762 m step length, calories from walking 5 km/h
at 700 kcal/h. -/
def calculate_distance_and_calories (steps : Int) : ℚ × ℚ :=
  let step_length_m : ℚ := 762 / 1000
  let distance_m : ℚ := steps * step_length_m
  let distance_km : ℚ := distance_m / 1000
  let walking_speed_kmh : ℚ := 5
  let time_hours : ℚ := distance_km / walking_speed_kmh
  let calories_per_hour : ℚ := 700
  let calories_burned : ℚ := time_hours * calories_per_hour
  (distance_km, calories_burned)

/-- One row of the `step_records` table. -/
structure StepRecord where
  id : Nat
  steps : Int
  distance_km : ℚ
  calories_burned : ℚ
  created_at : Nat
deriving DecidableEq

/-- One row of the `weight_goals` table. -/
structure WeightGoal where
  id : Nat
  target_weight_loss_kg : ℚ
  total_calories_needed : ℚ
  calories_burned_so_far : ℚ
  created_at : Nat
deriving DecidableEq

/-- Modelled from the spec: `database.py` (not under `src/`) declares the
`WeightGoal` ORM column defaults — `target_weight_loss_kg` and
`total_calories_needed` are "fixed defaults" (§3) whose numeric values the
spec does not pin down, and `calories_burned_so_far` starts at the sum of
an empty record set, i.e. 0 (§3).  We parameterize the operations over the
two unknown fixed defaults. -/
structure GoalDefaults where
  target_weight_loss_kg : ℚ
  total_calories_needed : ℚ
deriving DecidableEq

/-- The persistent state: the `step_records` table in insertion order, the
(at most one) `weight_goal` row, and the store-managed id / timestamp
counters. -/
structure Store where
  records : List StepRecord
  goal : Option WeightGoal
  next_id : Nat
  clock : Nat
deriving DecidableEq

/-- The freshly created schema: both tables empty. -/
def Store.empty : Store :=
  { records := [], goal := none, next_id := 1, clock := 1 }

/-- A fresh goal row built from the column defaults (`WeightGoal()` in
`add_steps`, with `calories_burned_so_far` starting at the given value). -/
def freshGoal (defs : GoalDefaults) (so_far : ℚ) (now : Nat) : WeightGoal :=
  { id := 1
    target_weight_loss_kg := defs.target_weight_loss_kg
    total_calories_needed := defs.total_calories_needed
    calories_burned_so_far := so_far
    created_at := now }

/-- `POST /steps` (`add_steps`): compute the derived fields, insert the new
record, fetch-or-create the singleton goal, add the new calories to its
`calories_burned_so_far`, and return the created record. -/
def add_steps (defs : GoalDefaults) (st : Store) (steps : Int) :
    Store × StepRecord :=
  let dc := calculate_distance_and_calories steps
  let db_step : StepRecord :=
    { id := st.next_id
      steps := steps
      distance_km := dc.1
      calories_burned := dc.2
      created_at := st.clock }
  let weight_goal : WeightGoal :=
    match st.goal with
    | some g => g
    | none => freshGoal defs 0 st.clock
  let weight_goal' :=
    { weight_goal with
        calories_burned_so_far :=
          weight_goal.calories_burned_so_far + dc.2 }
  ({ records := st.records ++ [db_step]
     goal := some weight_goal'
     next_id := st.next_id + 1
     clock := st.clock + 1 }, db_step)

/-- Insert a record into a list kept sorted by `created_at` descending
(the comparison the store uses for `ORDER BY created_at DESC`). -/
def insertByCreatedDesc (r : StepRecord) :
    List StepRecord → List StepRecord
  | [] => [r]
  | x :: xs =>
    if r.created_at ≤ x.created_at then x :: insertByCreatedDesc r xs
    else r :: x :: xs

/-- `ORDER BY created_at DESC` over the whole table. -/
def orderByCreatedDesc (rs : List StepRecord) : List StepRecord :=
  List.foldr insertByCreatedDesc [] rs

/-- `GET /steps` (`get_steps`): the records ordered by creation time
descending, truncated to `limit`. -/
def get_steps (st : Store) (limit : Nat) : List StepRecord :=
  (orderByCreatedDesc st.records).take limit

/-- The goal part of the dashboard response (`WeightGoalResponse`). -/
structure WeightGoalResponse where
  id : Nat
  target_weight_loss_kg : ℚ
  total_calories_needed : ℚ
  calories_burned_so_far : ℚ
  progress_percentage : ℚ
  remaining_calories : ℚ
  created_at : Nat
deriving DecidableEq

/-- The `GET /dashboard` response (`DashboardResponse`). -/
structure DashboardResponse where
  total_steps : Int
  total_distance_km : ℚ
  total_calories_burned : ℚ
  weight_goal : WeightGoalResponse
  recent_records : List StepRecord
deriving DecidableEq

/-- The `func.sum(StepRecord.calories_burned)` aggregate (`None`-as-0 on an
empty table is the `or 0.0` coercion). -/
def totalCalories (st : Store) : ℚ :=
  (st.records.map (fun r => r.calories_burned)).sum

/-- The fetch-or-create of the singleton goal inside `get_dashboard`, with
`calories_burned_so_far` overwritten by the fresh total. -/
def dashGoal (defs : GoalDefaults) (st : Store) (total : ℚ) : WeightGoal :=
  match st.goal with
  | some g => { g with calories_burned_so_far := total }
  | none => freshGoal defs total st.clock

/-- `GET /dashboard` (`get_dashboard`): sum the three columns over all
records (an empty table summing to 0), fetch-or-create the singleton goal,
overwrite its `calories_burned_so_far` with the fresh total, compute the
clamped progress figures, and return the five most recent records.  The
unguarded Python division makes the whole handler fail (`none`) when
`total_calories_needed = 0`. -/
def get_dashboard (defs : GoalDefaults) (st : Store) :
    Option (Store × DashboardResponse) :=
  let total_steps : Int := (st.records.map (fun r => r.steps)).sum
  let total_distance_km : ℚ := (st.records.map (fun r => r.distance_km)).sum
  let total_calories_burned : ℚ := totalCalories st
  let weight_goal : WeightGoal := dashGoal defs st total_calories_burned
  (pydiv weight_goal.calories_burned_so_far
      weight_goal.total_calories_needed).map fun q =>
    let progress_percentage : ℚ := min (q * 100) 100
    let remaining_calories : ℚ :=
      max (weight_goal.total_calories_needed -
        weight_goal.calories_burned_so_far) 0
    let weight_goal_response : WeightGoalResponse :=
      { id := weight_goal.id
        target_weight_loss_kg := weight_goal.target_weight_loss_kg
        total_calories_needed := weight_goal.total_calories_needed
        calories_burned_so_far := weight_goal.calories_burned_so_far
        progress_percentage := progress_percentage
        remaining_calories := remaining_calories
        created_at := weight_goal.created_at }
    ({ st with goal := some weight_goal, clock := st.clock + 1 },
      { total_steps := total_steps
        total_distance_km := total_distance_km
        total_calories_burned := total_calories_burned
        weight_goal := weight_goal_response
        recent_records := (orderByCreatedDesc st.records).take 5 })

/-- `DELETE /steps/{step_id}` (`delete_step_record`): look the record up by
id; absent ids raise a 404 (`Except.error`) and leave the store untouched;
otherwise the matching row is deleted.  The resulting store is returned in
both cases. -/
def delete_step_record (st : Store) (step_id : Nat) :
    Store × Except String String :=
  match st.records.find? (fun r => r.id == step_id) with
  | none => (st, Except.error "Step record not found")
  | some _ =>
    ({ st with records := st.records.eraseP (fun r => r.id == step_id) },
      Except.ok "Step record deleted successfully")

lemma pydiv_eq_some {a b q : ℚ} : pydiv a b = some q ↔ b ≠ 0 ∧ a / b = q := by
  by_cases hb : b = 0 <;> simp [pydiv, hb]

lemma dashGoal_so_far (defs : GoalDefaults) (st : Store) (t : ℚ) :
    (dashGoal defs st t).calories_burned_so_far = t := by
  cases hg : st.goal <;> simp [dashGoal, hg, freshGoal]

/-- Inversion for a completed dashboard read: the divisor was nonzero, and
the result store and response are exactly the ones built by the handler. -/
lemma get_dashboard_some_inv {defs : GoalDefaults} {st st' : Store}
    {resp : DashboardResponse}
    (h : get_dashboard defs st = some (st', resp)) :
    (dashGoal defs st (totalCalories st)).total_calories_needed ≠ 0 ∧
    st' = { st with
            goal := some (dashGoal defs st (totalCalories st))
            clock := st.clock + 1 } ∧
    resp =
      { total_steps := (st.records.map (fun r => r.steps)).sum
        total_distance_km := (st.records.map (fun r => r.distance_km)).sum
        total_calories_burned := totalCalories st
        weight_goal :=
          { id := (dashGoal defs st (totalCalories st)).id
            target_weight_loss_kg :=
              (dashGoal defs st (totalCalories st)).target_weight_loss_kg
            total_calories_needed :=
              (dashGoal defs st (totalCalories st)).total_calories_needed
            calories_burned_so_far :=
              (dashGoal defs st (totalCalories st)).calories_burned_so_far
            progress_percentage :=
              min ((dashGoal defs st (totalCalories st)).calories_burned_so_far /
                (dashGoal defs st (totalCalories st)).total_calories_needed *
                  100) 100
            remaining_calories :=
              max ((dashGoal defs st (totalCalories st)).total_calories_needed -
                (dashGoal defs st (totalCalories st)).calories_burned_so_far) 0
            created_at := (dashGoal defs st (totalCalories st)).created_at }
        recent_records := (orderByCreatedDesc st.records).take 5 } := by
  unfold get_dashboard at h
  rw [Option.map_eq_some'] at h
  obtain ⟨q, hq, hout⟩ := h
  obtain ⟨hb, hqv⟩ := pydiv_eq_some.mp hq
  subst hqv
  obtain ⟨h1, h2⟩ := Prod.mk.injEq .. ▸ hout
  exact ⟨hb, h1.symm, h2.symm⟩

/-- C6: For every store state containing a WeightGoal whose
`total_calories_needed` equals 0, the dashboard operation's unguarded
division by zero makes the operation fail (`none`) rather than return a
defined result. -/
theorem C6_dashboard_division_by_zero (defs : GoalDefaults) (st : Store)
    (g : WeightGoal) (hg : st.goal = some g)
    (hz : g.total_calories_needed = 0) :
    get_dashboard defs st = none := by
  unfold get_dashboard
  simp [dashGoal, hg, pydiv, hz]

theorem C6_dashboard_division_by_zero_witness :
    get_dashboard ⟨5, 38500⟩
      ⟨[], some ⟨1, 5, 0, 0, 1⟩, 1, 1⟩ = none :=
  C6_dashboard_division_by_zero ⟨5, 38500⟩
    ⟨[], some ⟨1, 5, 0, 0, 1⟩, 1, 1⟩ ⟨1, 5, 0, 0, 1⟩ rfl rfl

/-- C8: For every store state in which the dashboard operation completes,
the returned `remaining_calories` equals
`max (total_calories_needed - calories_burned_so_far) 0` and is therefore
always nonnegative. -/
theorem C8_remaining_calories_clamped (defs : GoalDefaults) (st st' : Store)
    (resp : DashboardResponse)
    (h : get_dashboard defs st = some (st', resp)) :
    resp.weight_goal.remaining_calories =
      max (resp.weight_goal.total_calories_needed -
        resp.weight_goal.calories_burned_so_far) 0 ∧
    0 ≤ resp.weight_goal.remaining_calories := by
  obtain ⟨-, -, hresp⟩ := get_dashboard_some_inv h
  subst hresp
  exact ⟨rfl, le_max_right _ _⟩

theorem C8_remaining_calories_clamped_witness :
    get_dashboard ⟨5, 38500⟩ Store.empty =
      some (⟨[], some ⟨1, 5, 38500, 0, 1⟩, 1, 2⟩,
        ⟨0, 0, 0, ⟨1, 5, 38500, 0, 0, 38500, 1⟩, []⟩) ∧
    ((⟨1, 5, 38500, 0, 0, 38500, 1⟩ : WeightGoalResponse).remaining_calories =
      max ((38500 : ℚ) - 0) 0 ∧
      (0 : ℚ) ≤ (⟨1, 5, 38500, 0, 0, 38500, 1⟩ :
        WeightGoalResponse).remaining_calories) := by
  have h : get_dashboard ⟨5, 38500⟩ Store.empty =
      some (⟨[], some ⟨1, 5, 38500, 0, 1⟩, 1, 2⟩,
        ⟨0, 0, 0, ⟨1, 5, 38500, 0, 0, 38500, 1⟩, []⟩) := by
    norm_num [get_dashboard, dashGoal, totalCalories, freshGoal, pydiv,
      Store.empty, orderByCreatedDesc, insertByCreatedDesc, min_def, max_def]
  exact ⟨h, C8_remaining_calories_clamped ⟨5, 38500⟩ Store.empty
    ⟨[], some ⟨1, 5, 38500, 0, 1⟩, 1, 2⟩
    ⟨0, 0, 0, ⟨1, 5, 38500, 0, 0, 38500, 1⟩, []⟩ h⟩

/-- C3: After every completed dashboard read, the singleton WeightGoal's
`calories_burned_so_far` equals the sum of `calories_burned` over all
StepRecords in the resulting store (an empty set summing to 0); the read
leaves the record set unchanged, so this re-derivation self-heals the
cached value after any earlier delete. -/
theorem C3_dashboard_restores_invariant (defs : GoalDefaults)
    (st st' : Store) (resp : DashboardResponse)
    (h : get_dashboard defs st = some (st', resp)) :
    st'.goal.map (fun g => g.calories_burned_so_far) =
      some ((st'.records.map (fun r => r.calories_burned)).sum) ∧
    st'.records = st.records := by
  obtain ⟨-, hst, -⟩ := get_dashboard_some_inv h
  subst hst
  refine ⟨?_, rfl⟩
  simp [dashGoal_so_far, totalCalories]

theorem C3_dashboard_restores_invariant_witness :
    get_dashboard ⟨5, 100⟩
        ⟨[⟨1, 0, 0, 7, 1⟩], some ⟨1, 5, 100, 3, 1⟩, 2, 2⟩ =
      some (⟨[⟨1, 0, 0, 7, 1⟩], some ⟨1, 5, 100, 7, 1⟩, 2, 3⟩,
        ⟨0, 0, 7, ⟨1, 5, 100, 7, 7, 93, 1⟩, [⟨1, 0, 0, 7, 1⟩]⟩) ∧
    ((⟨[⟨1, 0, 0, 7, 1⟩], some ⟨1, 5, 100, 7, 1⟩, 2, 3⟩ :
        Store).goal.map (fun g => g.calories_burned_so_far) =
      some (((⟨[⟨1, 0, 0, 7, 1⟩], some ⟨1, 5, 100, 7, 1⟩, 2, 3⟩ :
        Store).records.map (fun r => r.calories_burned)).sum) ∧
      (⟨[⟨1, 0, 0, 7, 1⟩], some ⟨1, 5, 100, 7, 1⟩, 2, 3⟩ :
        Store).records =
        (⟨[⟨1, 0, 0, 7, 1⟩], some ⟨1, 5, 100, 3, 1⟩, 2, 2⟩ :
          Store).records) := by
  have h : get_dashboard ⟨5, 100⟩
      ⟨[⟨1, 0, 0, 7, 1⟩], some ⟨1, 5, 100, 3, 1⟩, 2, 2⟩ =
      some (⟨[⟨1, 0, 0, 7, 1⟩], some ⟨1, 5, 100, 7, 1⟩, 2, 3⟩,
        ⟨0, 0, 7, ⟨1, 5, 100, 7, 7, 93, 1⟩, [⟨1, 0, 0, 7, 1⟩]⟩) := by
    norm_num [get_dashboard, dashGoal, totalCalories, freshGoal, pydiv,
      Store.empty, orderByCreatedDesc, insertByCreatedDesc, min_def, max_def]
  exact ⟨h, C3_dashboard_restores_invariant ⟨5, 100⟩
    ⟨[⟨1, 0, 0, 7, 1⟩], some ⟨1, 5, 100, 3, 1⟩, 2, 2⟩
    ⟨[⟨1, 0, 0, 7, 1⟩], some ⟨1, 5, 100, 7, 1⟩, 2, 3⟩
    ⟨0, 0, 7, ⟨1, 5, 100, 7, 7, 93, 1⟩, [⟨1, 0, 0, 7, 1⟩]⟩ h⟩

/-- C2 (counterexample): the claim that `progress_percentage` always lies in
`[0, 100]` fails on the code: the handler only clamps from above with `min`,
so a store reached by adding a record with a negative step count (accepted,
since `steps` is only validated to be an `int`) yields a completed dashboard
read whose `progress_percentage` is negative. -/
theorem C2_progress_negative_counterexample :
    ((get_dashboard ⟨5, 38500⟩
        (add_steps ⟨5, 38500⟩ Store.empty (-1000)).1).map
      (fun out => out.2.weight_goal.progress_percentage)) =
        some (-2667 / 9625) ∧
    ¬ (0 : ℚ) ≤ -2667 / 9625 := by
  constructor
  · norm_num [get_dashboard, add_steps, calculate_distance_and_calories,
      dashGoal, totalCalories, freshGoal, pydiv, Store.empty,
      orderByCreatedDesc, insertByCreatedDesc, min_def, max_def]
  · norm_num

/-- C2 (amended): for every completed dashboard read the returned
`progress_percentage` equals
`min (calories_burned_so_far / total_calories_needed * 100) 100`; it is
always at most 100, and it is nonnegative (hence in `[0, 100]`) whenever
`calories_burned_so_far ≥ 0` and `total_calories_needed > 0` — in
particular whenever every stored record has nonnegative calories and the
goal target is positive. -/
theorem C2_progress_percentage_clamped (defs : GoalDefaults) (st st' : Store)
    (resp : DashboardResponse)
    (h : get_dashboard defs st = some (st', resp)) :
    resp.weight_goal.progress_percentage =
      min (resp.weight_goal.calories_burned_so_far /
        resp.weight_goal.total_calories_needed * 100) 100 ∧
    resp.weight_goal.progress_percentage ≤ 100 ∧
    (0 ≤ resp.weight_goal.calories_burned_so_far →
      0 < resp.weight_goal.total_calories_needed →
      0 ≤ resp.weight_goal.progress_percentage) := by
  obtain ⟨-, -, hresp⟩ := get_dashboard_some_inv h
  subst hresp
  refine ⟨rfl, min_le_right _ _, fun hso hne => ?_⟩
  refine le_min ?_ (by norm_num)
  exact mul_nonneg (div_nonneg hso (le_of_lt hne)) (by norm_num)

theorem C2_progress_percentage_clamped_witness :
    get_dashboard ⟨5, 200⟩
        ⟨[⟨1, 0, 0, 50, 1⟩], some ⟨1, 5, 200, 0, 1⟩, 2, 2⟩ =
      some (⟨[⟨1, 0, 0, 50, 1⟩], some ⟨1, 5, 200, 50, 1⟩, 2, 3⟩,
        ⟨0, 0, 50, ⟨1, 5, 200, 50, 25, 150, 1⟩, [⟨1, 0, 0, 50, 1⟩]⟩) ∧
    ((⟨0, 0, 50, ⟨1, 5, 200, 50, 25, 150, 1⟩, [⟨1, 0, 0, 50, 1⟩]⟩ :
        DashboardResponse).weight_goal.progress_percentage =
      min (((⟨0, 0, 50, ⟨1, 5, 200, 50, 25, 150, 1⟩, [⟨1, 0, 0, 50, 1⟩]⟩ :
          DashboardResponse).weight_goal.calories_burned_so_far) /
        ((⟨0, 0, 50, ⟨1, 5, 200, 50, 25, 150, 1⟩, [⟨1, 0, 0, 50, 1⟩]⟩ :
          DashboardResponse).weight_goal.total_calories_needed) * 100) 100 ∧
      (⟨0, 0, 50, ⟨1, 5, 200, 50, 25, 150, 1⟩, [⟨1, 0, 0, 50, 1⟩]⟩ :
        DashboardResponse).weight_goal.progress_percentage ≤ 100 ∧
      0 ≤ (⟨0, 0, 50, ⟨1, 5, 200, 50, 25, 150, 1⟩, [⟨1, 0, 0, 50, 1⟩]⟩ :
        DashboardResponse).weight_goal.progress_percentage) := by
  have h : get_dashboard ⟨5, 200⟩
      ⟨[⟨1, 0, 0, 50, 1⟩], some ⟨1, 5, 200, 0, 1⟩, 2, 2⟩ =
      some (⟨[⟨1, 0, 0, 50, 1⟩], some ⟨1, 5, 200, 50, 1⟩, 2, 3⟩,
        ⟨0, 0, 50, ⟨1, 5, 200, 50, 25, 150, 1⟩, [⟨1, 0, 0, 50, 1⟩]⟩) := by
    norm_num [get_dashboard, dashGoal, totalCalories, freshGoal, pydiv,
      Store.empty, orderByCreatedDesc, insertByCreatedDesc, min_def, max_def]
  obtain ⟨h1, h2, h3⟩ := C2_progress_percentage_clamped ⟨5, 200⟩
    ⟨[⟨1, 0, 0, 50, 1⟩], some ⟨1, 5, 200, 0, 1⟩, 2, 2⟩
    ⟨[⟨1, 0, 0, 50, 1⟩], some ⟨1, 5, 200, 50, 1⟩, 2, 3⟩
    ⟨0, 0, 50, ⟨1, 5, 200, 50, 25, 150, 1⟩, [⟨1, 0, 0, 50, 1⟩]⟩ h
  exact ⟨h, h1, h2, h3 (by norm_num) (by norm_num)⟩

/-- C4: Starting from an empty store, after add-steps with `s1` and then
`s2` and no deletions, the dashboard completes (the goal target being
nonzero) and reports `total_steps = s1 + s2` and `total_calories_burned =
calories s1 + calories s2`; on the empty store the dashboard totals are
`0`, `0` and `0`, not null. -/
theorem C4_dashboard_totals (defs : GoalDefaults) (s1 s2 : Int)
    (hneed : defs.total_calories_needed ≠ 0) :
    ((get_dashboard defs
        (add_steps defs (add_steps defs Store.empty s1).1 s2).1).map
      (fun out => (out.2.total_steps, out.2.total_calories_burned))) =
        some (s1 + s2,
          (calculate_distance_and_calories s1).2 +
            (calculate_distance_and_calories s2).2) ∧
    ((get_dashboard defs Store.empty).map
      (fun out => (out.2.total_steps, out.2.total_distance_km,
        out.2.total_calories_burned))) = some (0, 0, 0) := by
  constructor
  · simp [get_dashboard, add_steps, dashGoal, totalCalories, freshGoal,
      Store.empty, pydiv, hneed]
  · simp [get_dashboard, dashGoal, totalCalories, freshGoal, Store.empty,
      pydiv, hneed]

theorem C4_dashboard_totals_witness :
    ((get_dashboard ⟨5, 38500⟩
        (add_steps ⟨5, 38500⟩
          (add_steps ⟨5, 38500⟩ Store.empty 1000).1 2000).1).map
      (fun out => (out.2.total_steps, out.2.total_calories_burned))) =
        some ((1000 : Int) + 2000,
          (calculate_distance_and_calories 1000).2 +
            (calculate_distance_and_calories 2000).2) ∧
    ((get_dashboard ⟨5, 38500⟩ Store.empty).map
      (fun out => (out.2.total_steps, out.2.total_distance_km,
        out.2.total_calories_burned))) = some (0, 0, 0) :=
  C4_dashboard_totals ⟨5, 38500⟩ 1000 2000 (by norm_num)

lemma eraseP_id_eq_erase (step_id : Nat) :
    ∀ (l : List StepRecord) (r : StepRecord), r ∈ l → r.id = step_id →
      (l.map (fun x => x.id)).Nodup →
      l.eraseP (fun x => x.id == step_id) = l.erase r := by
  intro l
  induction l with
  | nil => intro r hr; cases hr
  | cons x xs ih =>
    intro r hr hrid hnd
    rw [List.map_cons] at hnd
    obtain ⟨hx, hnd'⟩ := List.nodup_cons.mp hnd
    rcases List.mem_cons.mp hr with hrx | hrxs
    · subst hrx
      rw [List.eraseP_cons_of_pos (by simp [hrid]), List.erase_cons_head]
    · have hxid : x.id ≠ step_id := by
        intro hcontra
        have hmem : r.id ∈ List.map (fun x => x.id) xs :=
          List.mem_map_of_mem _ hrxs
        rw [hrid, ← hcontra] at hmem
        exact hx hmem
      have hxr : x ≠ r := fun hcontra => hxid (hcontra ▸ hrid)
      rw [List.eraseP_cons_of_neg (by simp [hxid]),
        List.erase_cons_tail (by simp [hxr]),
        ih r hrxs hrid hnd']

/-- C5: Deleting a `step_id` absent from the store returns the explicit
not-found error and leaves the whole store unchanged; deleting a present
`step_id` (record ids being unique) removes exactly that record, leaves
every other field of the store untouched, and returns success. -/
theorem C5_delete_step_record_spec (st : Store) (step_id : Nat) :
    ((∀ r ∈ st.records, r.id ≠ step_id) →
      delete_step_record st step_id =
        (st, Except.error "Step record not found")) ∧
    (∀ r ∈ st.records, r.id = step_id →
      (st.records.map (fun x => x.id)).Nodup →
      delete_step_record st step_id =
        ({ st with records := st.records.erase r },
          Except.ok "Step record deleted successfully")) := by
  constructor
  · intro habs
    have hnone : st.records.find? (fun r => r.id == step_id) = none := by
      rw [List.find?_eq_none]
      intro x hx
      simpa using habs x hx
    simp [delete_step_record, hnone]
  · intro r hr hrid hnd
    have hsome : (st.records.find? (fun x => x.id == step_id)).isSome := by
      rw [List.find?_isSome]
      exact ⟨r, hr, by simp [hrid]⟩
    obtain ⟨a, ha⟩ := Option.isSome_iff_exists.mp hsome
    rw [delete_step_record, ha]
    rw [eraseP_id_eq_erase step_id st.records r hr hrid hnd]

theorem C5_delete_step_record_spec_witness :
    delete_step_record ⟨[⟨1, 500, 1, 2, 1⟩], none, 2, 2⟩ 9 =
      (⟨[⟨1, 500, 1, 2, 1⟩], none, 2, 2⟩,
        Except.error "Step record not found") ∧
    delete_step_record
        ⟨[⟨1, 500, 1, 2, 1⟩, ⟨2, 600, 1, 3, 2⟩], none, 3, 3⟩ 2 =
      ({ (⟨[⟨1, 500, 1, 2, 1⟩, ⟨2, 600, 1, 3, 2⟩], none, 3, 3⟩ : Store) with
          records := ([⟨1, 500, 1, 2, 1⟩, ⟨2, 600, 1, 3, 2⟩] :
            List StepRecord).erase ⟨2, 600, 1, 3, 2⟩ },
        Except.ok "Step record deleted successfully") := by
  constructor
  · exact (C5_delete_step_record_spec
      ⟨[⟨1, 500, 1, 2, 1⟩], none, 2, 2⟩ 9).1 (by norm_num)
  · exact (C5_delete_step_record_spec
      ⟨[⟨1, 500, 1, 2, 1⟩, ⟨2, 600, 1, 3, 2⟩], none, 3, 3⟩ 2).2
      ⟨2, 600, 1, 3, 2⟩ (by simp) rfl (by simp)

/-- Records listed in creation order: strictly increasing `created_at`
(every reachable store keeps its table this way, the store clock being
strictly monotone). -/
def createdStrictMono (l : List StepRecord) : Prop :=
  l.Pairwise (fun a b => a.created_at < b.created_at)

lemma insertByCreatedDesc_of_le (r : StepRecord) (l : List StepRecord)
    (h : ∀ y ∈ l, r.created_at ≤ y.created_at) :
    insertByCreatedDesc r l = l ++ [r] := by
  induction l with
  | nil => rfl
  | cons x xs ih =>
    rw [insertByCreatedDesc, if_pos (h x (List.mem_cons_self x xs)),
      ih (fun y hy => h y (List.mem_cons_of_mem x hy)), List.cons_append]

lemma orderByCreatedDesc_eq_reverse (l : List StepRecord)
    (h : createdStrictMono l) : orderByCreatedDesc l = l.reverse := by
  induction l with
  | nil => rfl
  | cons x xs ih =>
    obtain ⟨hx, hxs⟩ := List.pairwise_cons.mp h
    have hstep : orderByCreatedDesc (x :: xs) =
        insertByCreatedDesc x (orderByCreatedDesc xs) := rfl
    rw [hstep, ih hxs, insertByCreatedDesc_of_le, List.reverse_cons]
    intro y hy
    exact le_of_lt (hx y (List.mem_reverse.mp hy))

/-- C7: Given records stored in creation order, list-steps returns the most
recent `limit` records newest first (the reversal of the table truncated to
`limit`); in particular after inserting three records starting from the
empty store, a request with `limit = 2` returns exactly the third and then
the second record just created. -/
theorem C7_get_steps_most_recent (st : Store) (limit : Nat)
    (h : createdStrictMono st.records) :
    get_steps st limit = st.records.reverse.take limit ∧
    (∀ (defs : GoalDefaults) (s1 s2 s3 : Int),
      get_steps (add_steps defs
          (add_steps defs (add_steps defs Store.empty s1).1 s2).1 s3).1 2 =
        [(add_steps defs
            (add_steps defs (add_steps defs Store.empty s1).1 s2).1 s3).2,
          (add_steps defs (add_steps defs Store.empty s1).1 s2).2]) := by
  constructor
  · rw [get_steps, orderByCreatedDesc_eq_reverse st.records h]
  · intro defs s1 s2 s3
    simp [get_steps, orderByCreatedDesc, insertByCreatedDesc, add_steps,
      Store.empty]

theorem C7_get_steps_most_recent_witness :
    createdStrictMono
      (⟨[⟨1, 500, 1, 2, 1⟩, ⟨2, 600, 1, 3, 2⟩, ⟨3, 700, 1, 4, 3⟩],
        none, 4, 4⟩ : Store).records ∧
    get_steps
        ⟨[⟨1, 500, 1, 2, 1⟩, ⟨2, 600, 1, 3, 2⟩, ⟨3, 700, 1, 4, 3⟩],
          none, 4, 4⟩ 2 =
      (⟨[⟨1, 500, 1, 2, 1⟩, ⟨2, 600, 1, 3, 2⟩, ⟨3, 700, 1, 4, 3⟩],
        none, 4, 4⟩ : Store).records.reverse.take 2 ∧
    get_steps (add_steps ⟨5, 38500⟩
        (add_steps ⟨5, 38500⟩
          (add_steps ⟨5, 38500⟩ Store.empty 100).1 200).1 300).1 2 =
      [(add_steps ⟨5, 38500⟩
          (add_steps ⟨5, 38500⟩
            (add_steps ⟨5, 38500⟩ Store.empty 100).1 200).1 300).2,
        (add_steps ⟨5, 38500⟩
          (add_steps ⟨5, 38500⟩ Store.empty 100).1 200).2] := by
  have hmono : createdStrictMono
      (⟨[⟨1, 500, 1, 2, 1⟩, ⟨2, 600, 1, 3, 2⟩, ⟨3, 700, 1, 4, 3⟩],
        none, 4, 4⟩ : Store).records := by
    simp [createdStrictMono]
  obtain ⟨h1, h2⟩ := C7_get_steps_most_recent
    ⟨[⟨1, 500, 1, 2, 1⟩, ⟨2, 600, 1, 3, 2⟩, ⟨3, 700, 1, 4, 3⟩],
      none, 4, 4⟩ 2 hmono
  exact ⟨hmono, h1, h2 ⟨5, 38500⟩ 100 200 300⟩

/-- Store states reachable by the public API from the freshly created
schema: add-steps, delete, and completed dashboard reads. -/
inductive Reachable (defs : GoalDefaults) : Store → Prop where
  | empty : Reachable defs Store.empty
  | add (st : Store) (s : Int) : Reachable defs st →
      Reachable defs (add_steps defs st s).1
  | del (st : Store) (i : Nat) : Reachable defs st →
      Reachable defs (delete_step_record st i).1
  | dash (st st' : Store) (resp : DashboardResponse) : Reachable defs st →
      get_dashboard defs st = some (st', resp) → Reachable defs st'

/-- C9: Every StepRecord in any reachable store satisfies the derived-field
relation `calories_burned = distance_km / 5 * 700` (equivalently
`calories_burned = distance_km * 140`) — records are created only by
add-steps, which computes both fields from the same conversion, and no
update operation exists. -/
theorem C9_derived_fields_invariant (defs : GoalDefaults) (st : Store)
    (h : Reachable defs st) (r : StepRecord) (hr : r ∈ st.records) :
    r.calories_burned = r.distance_km / 5 * 700 ∧
    r.calories_burned = r.distance_km * 140 := by
  induction h with
  | empty => cases hr
  | add st' s _ ih =>
    rcases (by simpa [add_steps] using hr :
        r ∈ st'.records ∨ r =
          { id := st'.next_id
            steps := s
            distance_km := (calculate_distance_and_calories s).1
            calories_burned := (calculate_distance_and_calories s).2
            created_at := st'.clock }) with hold | hnew
    · exact ih hold
    · subst hnew
      constructor
      · rfl
      · show (calculate_distance_and_calories s).1 / 5 * 700 =
          (calculate_distance_and_calories s).1 * 140
        ring
  | del st' i _ ih =>
    cases hf : st'.records.find? (fun x => x.id == i) with
    | none =>
      rw [delete_step_record] at hr
      rw [hf] at hr
      exact ih hr
    | some a =>
      rw [delete_step_record] at hr
      rw [hf] at hr
      exact ih ((List.eraseP_sublist st'.records).mem hr)
  | dash st' st'' resp _ hd ih =>
    obtain ⟨-, hst, -⟩ := get_dashboard_some_inv hd
    subst hst
    exact ih hr

theorem C9_derived_fields_invariant_witness :
    (add_steps ⟨5, 38500⟩ Store.empty 1000).2.calories_burned =
      (add_steps ⟨5, 38500⟩ Store.empty 1000).2.distance_km / 5 * 700 ∧
    (add_steps ⟨5, 38500⟩ Store.empty 1000).2.calories_burned =
      (add_steps ⟨5, 38500⟩ Store.empty 1000).2.distance_km * 140 :=
  C9_derived_fields_invariant ⟨5, 38500⟩
    (add_steps ⟨5, 38500⟩ Store.empty 1000).1
    (Reachable.add Store.empty 1000 Reachable.empty)
    (add_steps ⟨5, 38500⟩ Store.empty 1000).2
    (by simp [add_steps, Store.empty])

/-- C10: When a WeightGoal already exists, add-steps changes only its
`calories_burned_so_far` (incrementing it by the new record's
`calories_burned`); the goal's other fields stay as they were, and the new
record set is exactly the old one with the new record appended. -/
theorem C10_add_steps_frame (defs : GoalDefaults) (st : Store) (s : Int)
    (g : WeightGoal) (hg : st.goal = some g) :
    (add_steps defs st s).1.goal =
      some { g with calories_burned_so_far :=
        g.calories_burned_so_far + (add_steps defs st s).2.calories_burned } ∧
    (add_steps defs st s).1.records = st.records ++ [(add_steps defs st s).2] := by
  constructor
  · simp [add_steps, hg]
  · simp [add_steps]

theorem C10_add_steps_frame_witness :
    (add_steps ⟨5, 38500⟩ ⟨[], some ⟨1, 5, 38500, 10, 1⟩, 1, 1⟩ 500).1.goal =
      some ⟨1, 5, 38500,
        10 + (add_steps ⟨5, 38500⟩
          ⟨[], some ⟨1, 5, 38500, 10, 1⟩, 1, 1⟩ 500).2.calories_burned, 1⟩ ∧
    (add_steps ⟨5, 38500⟩ ⟨[], some ⟨1, 5, 38500, 10, 1⟩, 1, 1⟩ 500).1.records =
      ([] : List StepRecord) ++
        [(add_steps ⟨5, 38500⟩ ⟨[], some ⟨1, 5, 38500, 10, 1⟩, 1, 1⟩ 500).2] :=
  C10_add_steps_frame ⟨5, 38500⟩ ⟨[], some ⟨1, 5, 38500, 10, 1⟩, 1, 1⟩ 500
    ⟨1, 5, 38500, 10, 1⟩ rfl

/-- C1: For every integer step count `s ≥ 0`, the conversion returns
`distance_km = s * 0.762 / 1000` and `calories_burned = distance_km / 5 * 700`
(equivalently `s * 0.762 / 1000 / 5 * 700`); it is a pure function, and at
`s = 0` both outputs are 0. -/
theorem C1_conversion_formula (s : Int) (h : 0 ≤ s) :
    (calculate_distance_and_calories s).1 = s * (762 / 1000) / 1000 ∧
    (calculate_distance_and_calories s).2 =
      (calculate_distance_and_calories s).1 / 5 * 700 ∧
    (calculate_distance_and_calories s).2 =
      s * (762 / 1000) / 1000 / 5 * 700 ∧
    calculate_distance_and_calories 0 = (0, 0) := by
  refine ⟨rfl, rfl, rfl, ?_⟩
  simp [calculate_distance_and_calories]

theorem C1_conversion_formula_witness :
    (calculate_distance_and_calories 10000).1 =
      10000 * (762 / 1000) / 1000 ∧
    (calculate_distance_and_calories 10000).2 =
      (calculate_distance_and_calories 10000).1 / 5 * 700 ∧
    (calculate_distance_and_calories 10000).2 =
      10000 * (762 / 1000) / 1000 / 5 * 700 ∧
    calculate_distance_and_calories 0 = (0, 0) := by
  have h := C1_conversion_formula 10000 (by decide)
  simpa using h

end StepCounter
